import Mathlib

/-!
Verification of `dags/weatherstack_to_postgres.py`, a three-step weather ETL
pipeline (schema provisioning, API fetch with endpoint fallback, row load,
retention pruning).  Python/JSON values are shallowly embedded as `JVal`;
numbers are modelled as exact rationals; raised exceptions are modelled as
`Except String` with the exception message as the payload.
-/

namespace WeatherEtl

/- A JSON value as produced by `resp.json()` / consumed by `psycopg2.extras.Json`.
`jnull` also stands for the Python `None` object.  Objects and arrays are
mutual inductives (`JFields`, `JElems`) rather than `List`-nested ones so that
decidable equality (Python `==` / JSONB structural equality) is derivable. -/
mutual
inductive JVal where
  | jnull : JVal
  | jbool : Bool → JVal
  | jnum : ℚ → JVal
  | jstr : String → JVal
  | jobj : JFields → JVal
  | jarr : JElems → JVal
deriving DecidableEq

inductive JFields where
  | nil : JFields
  | cons : String → JVal → JFields → JFields
deriving DecidableEq

inductive JElems where
  | nil : JElems
  | cons : JVal → JElems → JElems
deriving DecidableEq
end

/-- Build an object from a `List` of key/value pairs (construction helper). -/
def JFields.ofList : List (String × JVal) → JFields
  | [] => .nil
  | (k, v) :: rest => .cons k v (JFields.ofList rest)

/-- `jo l` abbreviates the object with the given fields. -/
def jo (l : List (String × JVal)) : JVal := .jobj (JFields.ofList l)

/-- Build an array from a `List` (construction helper). -/
def JElems.ofList : List JVal → JElems
  | [] => .nil
  | v :: rest => .cons v (JElems.ofList rest)

/-- `ja l` abbreviates the array with the given elements. -/
def ja (l : List JVal) : JVal := .jarr (JElems.ofList l)

/-- First value stored under key `k`, i.e. Python `d[k]` / `d.get(k)` on the
underlying dict (Python dicts have unique keys; the embedding takes the
first occurrence). -/
def JFields.lookup : JFields → String → Option JVal
  | .nil, _ => none
  | .cons k v rest, key => if k == key then some v else rest.lookup key

/-- Whether the field list is empty (Python truthiness of a dict). -/
def JFields.isEmpty : JFields → Bool
  | .nil => true
  | .cons _ _ _ => false

/-- Whether the element list is empty (Python truthiness of a list). -/
def JElems.isEmpty : JElems → Bool
  | .nil => true
  | .cons _ _ => false

/-- Python truthiness (`bool(x)`) on embedded values: `None`, `False`, `0`,
`""`, `{}` and `[]` are falsy, everything else truthy. -/
def pyTruthy : JVal → Bool
  | .jnull => false
  | .jbool b => b
  | .jnum q => q != 0
  | .jstr s => s != ""
  | .jobj fs => !fs.isEmpty
  | .jarr xs => !xs.isEmpty

/-- Environment: mapping a variable name to its value when set. -/
def Env : Type := String → Option String

/-- `str(x)` applied to an optional value: Python renders `None` as the
string `"None"`; an actual string renders as itself. -/
def strOfOptStr : Option String → String
  | none => "None"
  | some s => s

/-- `s.strip() == ""`: the string consists only of whitespace. -/
def isBlankStr (s : String) : Bool := s.data.all Char.isWhitespace

/-- Embedding of `_get_env(name, default, required)`:
`val = os.getenv(name, default)`; raise `ValueError` when `required` and
`val` is `None` or `str(val).strip()` is empty; otherwise return `str(val)`. -/
def _get_env (env : Env) (name : String) (default : Option String)
    (required : Bool) : Except String String :=
  let val : Option String := match env name with
    | some v => some v
    | none => default
  if required && (val.isNone || isBlankStr (strOfOptStr val)) then
    .error ("Missing required environment variable: " ++ name)
  else
    .ok (strOfOptStr val)

/-- Rendering of an embedded number, as used inside f-strings.  Integral
rationals render like Python ints; non-integral ones render as `num/den`
(a model-level stand-in for Python's float repr — no claim depends on the
textual form of a non-integral number). -/
def ratStr (q : ℚ) : String :=
  if q.den = 1 then toString q.num else toString q.num ++ "/" ++ toString q.den

mutual
/-- Python `repr(x)` on embedded values (string quoting is approximated:
no escape sequences are modelled). -/
def pyRepr : JVal → String
  | .jnull => "None"
  | .jbool true => "True"
  | .jbool false => "False"
  | .jnum q => ratStr q
  | .jstr s => "\x27" ++ s ++ "\x27"
  | .jobj fs => "\x7b" ++ reprFields fs ++ "\x7d"
  | .jarr xs => "[" ++ reprElems xs ++ "]"

def reprFields : JFields → String
  | .nil => ""
  | .cons k v .nil => "\x27" ++ k ++ "\x27: " ++ pyRepr v
  | .cons k v rest => "\x27" ++ k ++ "\x27: " ++ pyRepr v ++ ", " ++ reprFields rest

def reprElems : JElems → String
  | .nil => ""
  | .cons v .nil => pyRepr v
  | .cons v rest => pyRepr v ++ ", " ++ reprElems rest
end

/-- Python `str(x)`: identity on strings, `repr` otherwise. -/
def pyStr : JVal → String
  | .jstr s => s
  | v => pyRepr v

/-- `str` applied to an optional embedded value (`.get` result inside an
f-string): `None` renders as `"None"`. -/
def strOfOptJ : Option JVal → String
  | none => "None"
  | some v => pyStr v

/-- Numeric value of a digit list (most significant first). -/
def digitsToNat (cs : List Char) : ℕ :=
  cs.foldl (fun a c => a * 10 + (c.toNat - 48)) 0

/-- Embedding of Python `float(s)` on strings, for plain decimal literals:
optional surrounding whitespace, optional sign, digits with an optional
fractional part.  (Exponent/inf/nan forms are outside the payloads modelled
here and no claim depends on them.) -/
def parseDecimal (s : String) : Option ℚ :=
  let cs := ((s.data.dropWhile Char.isWhitespace).reverse.dropWhile
    Char.isWhitespace).reverse
  let signAndRest : Int × List Char :=
    match cs with
    | '-' :: rest => (-1, rest)
    | '+' :: rest => (1, rest)
    | _ => (1, cs)
  let sign := signAndRest.1
  let body := signAndRest.2
  let intPart := body.takeWhile Char.isDigit
  let rest := body.dropWhile Char.isDigit
  match rest with
  | [] =>
      if intPart.isEmpty then none
      else some (mkRat (sign * (digitsToNat intPart : Int)) 1)
  | '.' :: frac =>
      if frac.all Char.isDigit && !(intPart.isEmpty && frac.isEmpty) then
        some (mkRat
          (sign * ((digitsToNat intPart * 10 ^ frac.length + digitsToNat frac : ℕ) : Int))
          (10 ^ frac.length))
      else none
  | _ => none

/-- Embedding of Python `float(x)`: numbers pass through, booleans coerce to
0/1, strings are parsed as decimals; `None`, dicts and lists raise
(`none` here). -/
def pyFloat : JVal → Option ℚ
  | .jnum q => some q
  | .jbool b => some (if b then 1 else 0)
  | .jstr s => parseDecimal s
  | _ => none

/-- Substring test on strings (Python `needle in haystack` for `str`). -/
def strContainsB (needle hay : String) : Bool :=
  (List.range (hay.toList.length + 1)).any
    (fun i => needle.toList.isPrefixOf (hay.toList.drop i))

/-- Whether some element of the array equals (Python `==`) the given string:
only equal `str` elements compare equal to a string. -/
def JElems.containsStr : JElems → String → Bool
  | .nil, _ => false
  | .cons (.jstr t) rest, s => t == s || rest.containsStr s
  | .cons _ rest, s => rest.containsStr s

/-- Python membership test `s in data` as used by `"current" not in data`:
key membership for dicts, element equality for lists, substring test for
strings; `TypeError` (modelled as `.error`) for non-iterables. -/
def pyContains (s : String) : JVal → Except String Bool
  | .jobj fs => .ok (fs.lookup s).isSome
  | .jarr xs => .ok (xs.containsStr s)
  | .jstr t => .ok (strContainsB s t)
  | v => .error ("TypeError: argument of type " ++ pyRepr v ++ " is not iterable")

/-- `isinstance(data, dict) and data.get("success") is False`. -/
def isFalseFlag : JVal → Bool
  | .jobj fs =>
      match fs.lookup "success" with
      | some (.jbool false) => true
      | _ => false
  | _ => false

/-- `data.get("error", {})` (only reached when `data` is a dict). -/
def errSection : JVal → JVal
  | .jobj fs =>
      match fs.lookup "error" with
      | some v => v
      | none => jo []
  | _ => jo []

/-- The response validation performed inside the fetch loop for one parsed
response body: raise on an explicit `success: false` flag (embedding the
provider error code and info in the message), raise on a body without
`current`, return the body unchanged otherwise. -/
def validateResponse (data : JVal) : Except String JVal :=
  if isFalseFlag data then
    match errSection data with
    | .jobj efs =>
        .error ("Weatherstack API error (code=" ++ strOfOptJ (efs.lookup "code")
          ++ "): " ++ strOfOptJ (efs.lookup "info"))
    | v => .error ("AttributeError: " ++ pyRepr v ++ " object has no attribute get")
  else
    match pyContains "current" data with
    | .error e => .error e
    | .ok true => .ok data
    | .ok false => .error ("Unexpected API response shape: " ++ pyStr data)

/-- The network/parse stage, abstracted: given a base url and the three query
parameters (`access_key`, `query`, `units`), either an exception message
(network failure, timeout, JSON parse error) or the parsed body. -/
def Net : Type := String → String → String → String → Except String JVal

/-- One iteration of the fetch loop body for a single endpoint candidate:
issue the GET and validate the parsed body. -/
def attemptEndpoint (net : Net) (api_key query units url : String) :
    Except String JVal :=
  match net url api_key query units with
  | .error e => .error e
  | .ok data => validateResponse data

/-- The `for base_url in base_urls` loop with its `last_error` accumulator:
return the first candidate's validated payload, otherwise record the
exception and continue; after the list is exhausted raise the aggregated
error referencing the last failure. -/
def fetchLoop (net : Net) (api_key query units : String) :
    List String → Option String → Except String JVal
  | [], last_err =>
      .error ("Failed calling Weatherstack API (https/http). Last error: "
        ++ strOfOptStr last_err)
  | url :: rest, _ =>
      match attemptEndpoint net api_key query units url with
      | .ok d => .ok d
      | .error e => fetchLoop net api_key query units rest (some e)

/-- The fixed candidate list: secure transport first, insecure second. -/
def base_urls : List String :=
  ["https://api.weatherstack.com/current", "http://api.weatherstack.com/current"]

/-- Embedding of `fetch_weather_from_api(query, api_key, units)`. -/
def fetch_weather_from_api (net : Net) (query api_key units : String) :
    Except String JVal :=
  fetchLoop net api_key query units base_urls none

/-- `fs.get(k)` on a dict: the stored value, with a stored JSON `null`
identified with the absent-key result (both are the Python `None` object). -/
def JFields.lookupN (fs : JFields) (k : String) : Option JVal :=
  match fs.lookup k with
  | some .jnull => none
  | some x => some x
  | none => none

/-- `x.get(k)` on an embedded value: `AttributeError` when the receiver is
not a dict; otherwise the `None`-normalized lookup. -/
def pyGetAttr (v : JVal) (k : String) : Except String (Option JVal) :=
  match v with
  | .jobj fs => .ok (fs.lookupN k)
  | other =>
      .error ("AttributeError: " ++ pyRepr other ++ " object has no attribute get")

/-- `api_payload.get(key, {}) or {}`: the stored section when it is truthy,
the empty dict when the key is absent or the stored value falsy. -/
def sectionOr (payload : JVal) (key : String) : Except String JVal :=
  match pyGetAttr payload key with
  | .error e => .error e
  | .ok none => .ok (jo [])
  | .ok (some v) => .ok (if pyTruthy v then v else jo [])

/-- `float(x) if x is not None else None` applied to a `.get` result. -/
def floatIfPresent (v : Option JVal) : Except String (Option ℚ) :=
  match v with
  | none => .ok none
  | some x =>
      match pyFloat x with
      | some q => .ok (some q)
      | none => .error ("could not convert to float: " ++ pyRepr x)

/-- The `row` dict built by `load_to_postgres` (the insert's column values).
`none` is the Python `None` / SQL NULL; `raw` is the JSONB archive column
holding the complete payload. -/
structure WeatherRow where
  query_text : Option JVal
  location_name : Option JVal
  region : Option JVal
  country : Option JVal
  latitude : Option ℚ
  longitude : Option ℚ
  observation_time : Option JVal
  temperature_c : Option JVal
  humidity : Option JVal
  wind_speed : Option JVal
  wind_dir : Option JVal
  pressure : Option JVal
  precip : Option JVal
  cloudcover : Option JVal
  uv_index : Option JVal
  visibility : Option JVal
  is_day : Option JVal
  raw : JVal
deriving DecidableEq

/-- Construction of the row dict from the payload (`load_to_postgres` lines
110–133): defensive section reads, `float` coercion of lat/lon only when
present, and the whole payload in `raw`. -/
def buildRow (api_payload : JVal) : Except String WeatherRow := do
  let request_obj ← sectionOr api_payload "request"
  let location ← sectionOr api_payload "location"
  let current ← sectionOr api_payload "current"
  let query_text ← pyGetAttr request_obj "query"
  let location_name ← pyGetAttr location "name"
  let region ← pyGetAttr location "region"
  let country ← pyGetAttr location "country"
  let latitude ← floatIfPresent (← pyGetAttr location "lat")
  let longitude ← floatIfPresent (← pyGetAttr location "lon")
  let observation_time ← pyGetAttr current "observation_time"
  let temperature_c ← pyGetAttr current "temperature"
  let humidity ← pyGetAttr current "humidity"
  let wind_speed ← pyGetAttr current "wind_speed"
  let wind_dir ← pyGetAttr current "wind_dir"
  let pressure ← pyGetAttr current "pressure"
  let precip ← pyGetAttr current "precip"
  let cloudcover ← pyGetAttr current "cloudcover"
  let uv_index ← pyGetAttr current "uv_index"
  let visibility ← pyGetAttr current "visibility"
  let is_day ← pyGetAttr current "is_day"
  pure {
    query_text := query_text
    location_name := location_name
    region := region
    country := country
    latitude := latitude
    longitude := longitude
    observation_time := observation_time
    temperature_c := temperature_c
    humidity := humidity
    wind_speed := wind_speed
    wind_dir := wind_dir
    pressure := pressure
    precip := precip
    cloudcover := cloudcover
    uv_index := uv_index
    visibility := visibility
    is_day := is_day
    raw := api_payload }

/-- One persisted row of `weather_current`: the column values plus the
`fetched_at` timestamp, which the database fills with its own `now()`
(modelled in seconds as an exact rational). -/
structure StoredRow where
  fetched_at : ℚ
  cols : WeatherRow
deriving DecidableEq

/-- Embedding of `load_to_postgres(api_payload)`: build the row dict and
execute the single INSERT, the database stamping `fetched_at := now`. -/
def load_to_postgres (api_payload : JVal) (now : ℚ) (db : List StoredRow) :
    Except String (List StoredRow) := do
  let row ← buildRow api_payload
  pure (db ++ [{ fetched_at := now, cols := row }])

/-- `RETENTION_DAYS = 2` — only the last 2 days are kept. -/
def RETENTION_DAYS : ℕ := 2

/-- Seconds per day, for the `'2 days'::interval` arithmetic. -/
def secondsPerDay : ℚ := 86400

/-- `now() - (RETENTION_DAYS || ' days')::interval`, the DELETE's cutoff
computed from the database server's clock. -/
def retentionCutoff (now : ℚ) : ℚ := now - (RETENTION_DAYS : ℚ) * secondsPerDay

/-- Embedding of `cleanup_old_rows()`: the single set-based
`DELETE FROM weather_current WHERE fetched_at < now() - '2 days'::interval`,
keeping exactly the rows at or after the cutoff. -/
def cleanup_old_rows (now : ℚ) (db : List StoredRow) : List StoredRow :=
  db.filter (fun r => !(decide (r.fetched_at < retentionCutoff now)))

/-- Database schema state: the names of existing tables and indexes
(as multisets via lists, so idempotence is observable). -/
structure DbSchema where
  tables : List String
  indexes : List String
deriving DecidableEq

/-- `CREATE TABLE IF NOT EXISTS t (...)`. -/
def createTableIfAbsent (s : DbSchema) (t : String) : DbSchema :=
  if t ∈ s.tables then s else { s with tables := s.tables ++ [t] }

/-- `CREATE INDEX IF NOT EXISTS i ON ...`. -/
def createIndexIfAbsent (s : DbSchema) (i : String) : DbSchema :=
  if i ∈ s.indexes then s else { s with indexes := s.indexes ++ [i] }

/-- Embedding of `ensure_table()`: run `CREATE_TABLE_SQL`, i.e. the two
conditional DDL statements for the `weather_current` table and its
descending `fetched_at` index. -/
def ensure_table (s : DbSchema) : DbSchema :=
  createIndexIfAbsent (createTableIfAbsent s "weather_current")
    "idx_weather_current_fetched_at"

/-- Embedding of `extract_and_load()`: read configuration (API key required,
query and units defaulted), fetch, then load. -/
def extract_and_load (env : Env) (net : Net) (now : ℚ) (db : List StoredRow) :
    Except String (List StoredRow) := do
  let api_key ← _get_env env "WEATHERSTACK_API_KEY" none true
  let query ← _get_env env "WEATHERSTACK_QUERY" (some "Jakarta") false
  let units ← _get_env env "WEATHERSTACK_UNITS" (some "m") false
  let payload ← fetch_weather_from_api net query api_key units
  load_to_postgres payload now db

/-- The flattened-field mapping as the spec documents it: a plain nested
lookup `payload[section][field]` yielding null when the section is absent or
not a mapping.  `buildRow` is proved to agree with this on every payload it
accepts. -/
def plainField (p : JVal) (sec k : String) : Option JVal :=
  match p with
  | .jobj fs =>
      match fs.lookup sec with
      | some (.jobj sfs) => sfs.lookupN k
      | _ => none
  | _ => none

/-- A section key is absent from the payload or stored as JSON null. -/
def missingOrNull (fs : JFields) (k : String) : Prop :=
  fs.lookup k = none ∨ fs.lookup k = some .jnull

/-- Whether a payload is a mapping with the given key (the reading of
"contains the `current` key" for dict payloads; non-mappings have no keys). -/
def hasKey (d : JVal) (k : String) : Bool :=
  match d with
  | .jobj fs => (fs.lookup k).isSome
  | _ => false

/-- The spec's example payload for the end-to-end check (query "Jakarta"). -/
def jakartaPayload : JVal :=
  jo [("request", jo [("query", .jstr "Jakarta")]),
    ("location", jo [("name", .jstr "Jakarta"), ("lat", .jstr "-6.21"),
      ("lon", .jstr "106.85")]),
    ("current", jo [("temperature", .jnum 29), ("humidity", .jnum 70)])]

/-- The row the example payload maps to. -/
def jakartaRow : WeatherRow :=
  { query_text := some (.jstr "Jakarta")
    location_name := some (.jstr "Jakarta")
    region := none
    country := none
    latitude := some (mkRat (-621) 100)
    longitude := some (mkRat 10685 100)
    observation_time := none
    temperature_c := some (.jnum 29)
    humidity := some (.jnum 70)
    wind_speed := none
    wind_dir := none
    pressure := none
    precip := none
    cloudcover := none
    uv_index := none
    visibility := none
    is_day := none
    raw := jakartaPayload }

/-- A network whose parsed body is a JSON array containing the string
"current" (a body the Python membership test accepts). -/
def arrayNet : Net := fun _ _ _ _ => .ok (ja [.jstr "current"])

/-- A network returning a well-shaped body on every endpoint. -/
def okNet : Net := fun _ _ _ _ =>
  .ok (jo [("current", jo [("temperature", .jnum 29)])])

/-- A network failing on the secure endpoint and succeeding on the
insecure one. -/
def fallbackNet : Net := fun url _ _ _ =>
  if url = "https://api.weatherstack.com/current" then
    .error "SSL handshake failed"
  else .ok (jo [("current", jo [("temperature", .jnum 29)])])

/-- A network timing out on every endpoint. -/
def downNet : Net := fun _ _ _ _ => .error "connection timed out"

/-- A provider body reporting `success: false` with error code 104. -/
def quotaPayload : JVal :=
  jo [("success", .jbool false),
    ("error", jo [("code", .jnum 104), ("info", .jstr "usage limit reached")])]

/-- A network returning the failing provider body on every endpoint. -/
def quotaNet : Net := fun _ _ _ _ => .ok quotaPayload

/-- A row with every nullable column null (used as concrete test data). -/
def blankRow : WeatherRow :=
  { query_text := none, location_name := none, region := none, country := none
    latitude := none, longitude := none, observation_time := none
    temperature_c := none, humidity := none, wind_speed := none
    wind_dir := none, pressure := none, precip := none, cloudcover := none
    uv_index := none, visibility := none, is_day := none, raw := jo [] }

/-- An environment with no variable set. -/
def emptyEnv : Env := fun _ => none

lemma bindOk {α β : Type} {x : Except String α} {f : α → Except String β}
    {b : β} (h : (x >>= f) = .ok b) : ∃ a, x = .ok a ∧ f a = .ok b := by
  cases x with
  | error e => simp [Bind.bind, Except.bind] at h
  | ok a => exact ⟨a, rfl, by simpa [Bind.bind, Except.bind] using h⟩

lemma pure_eq_ok {α : Type} (a : α) : (pure a : Except String α) = .ok a := rfl

/-- Defensive-read refinement: when the row builder's section read and the
subsequent `.get` both succeed, the result is exactly the plain nested
lookup `plainField`. -/
lemma sectionOr_getAttr {p : JVal} {sec k : String} {so : JVal}
    {v : Option JVal} (h1 : sectionOr p sec = .ok so)
    (h2 : pyGetAttr so k = .ok v) : v = plainField p sec k := by
  cases p with
  | jobj fs =>
      simp only [sectionOr, pyGetAttr, JFields.lookupN] at h1
      cases hl : fs.lookup sec with
      | none =>
          rw [hl] at h1
          simp only [Except.ok.injEq] at h1
          subst h1
          simp only [pyGetAttr, jo, JFields.ofList] at h2
          simp only [Except.ok.injEq] at h2
          simp [plainField, hl, ← h2, JFields.lookupN, JFields.lookup]
      | some x =>
          rw [hl] at h1
          cases x with
          | jnull =>
              simp only [Except.ok.injEq] at h1
              subst h1
              simp only [pyGetAttr, jo, JFields.ofList, Except.ok.injEq] at h2
              simp [plainField, hl, ← h2, JFields.lookupN, JFields.lookup]
          | jobj sfs =>
              simp only [Except.ok.injEq] at h1
              by_cases ht : pyTruthy (.jobj sfs) = true
              · rw [if_pos ht] at h1
                subst h1
                simp only [pyGetAttr, Except.ok.injEq] at h2
                simp [plainField, hl, ← h2]
              · rw [if_neg ht] at h1
                subst h1
                simp only [pyGetAttr, jo, JFields.ofList, Except.ok.injEq] at h2
                -- an untruthy dict is the empty dict, whose lookup is `none`
                cases sfs with
                | nil => simp [plainField, hl, ← h2, JFields.lookupN, JFields.lookup]
                | cons a b c => simp [pyTruthy, JFields.isEmpty] at ht
          | jbool b =>
              simp only [Except.ok.injEq] at h1
              by_cases hb : pyTruthy (.jbool b) = true
              · rw [if_pos hb] at h1
                subst h1
                simp [pyGetAttr] at h2
              · rw [if_neg hb] at h1
                subst h1
                simp only [pyGetAttr, jo, JFields.ofList, Except.ok.injEq] at h2
                simp [plainField, hl, ← h2, JFields.lookupN, JFields.lookup]
          | jnum q =>
              simp only [Except.ok.injEq] at h1
              by_cases hq : pyTruthy (.jnum q) = true
              · rw [if_pos hq] at h1
                subst h1
                simp [pyGetAttr] at h2
              · rw [if_neg hq] at h1
                subst h1
                simp only [pyGetAttr, jo, JFields.ofList, Except.ok.injEq] at h2
                simp [plainField, hl, ← h2, JFields.lookupN, JFields.lookup]
          | jstr s =>
              simp only [Except.ok.injEq] at h1
              by_cases hs : pyTruthy (.jstr s) = true
              · rw [if_pos hs] at h1
                subst h1
                simp [pyGetAttr] at h2
              · rw [if_neg hs] at h1
                subst h1
                simp only [pyGetAttr, jo, JFields.ofList, Except.ok.injEq] at h2
                simp [plainField, hl, ← h2, JFields.lookupN, JFields.lookup]
          | jarr xs =>
              simp only [Except.ok.injEq] at h1
              by_cases hx : pyTruthy (.jarr xs) = true
              · rw [if_pos hx] at h1
                subst h1
                simp [pyGetAttr] at h2
              · rw [if_neg hx] at h1
                subst h1
                simp only [pyGetAttr, jo, JFields.ofList, Except.ok.injEq] at h2
                simp [plainField, hl, ← h2, JFields.lookupN, JFields.lookup]
  | jnull => simp [sectionOr, pyGetAttr] at h1
  | jbool b => simp [sectionOr, pyGetAttr] at h1
  | jnum q => simp [sectionOr, pyGetAttr] at h1
  | jstr s => simp [sectionOr, pyGetAttr] at h1
  | jarr xs => simp [sectionOr, pyGetAttr] at h1

lemma floatIfPresent_ok {vo : Option JVal} {lq : Option ℚ}
    (h : floatIfPresent vo = .ok lq) : lq = vo.bind pyFloat := by
  cases vo with
  | none => simpa [floatIfPresent, Option.bind, eq_comm] using h
  | some x =>
      cases hx : pyFloat x with
      | none => simp [floatIfPresent, hx] at h
      | some q =>
          simp only [floatIfPresent, hx, Except.ok.injEq] at h
          simp [← h, Option.bind, hx]

/-- Master field lemma: whenever the row builder succeeds, every flattened
column of the produced row equals the plain nested lookup into the original
payload documented by the mapping policy, and the archive column is the
payload itself. -/
lemma buildRow_ok_fields {p : JVal} {r : WeatherRow}
    (h : buildRow p = .ok r) :
    r.raw = p ∧
    r.query_text = plainField p "request" "query" ∧
    r.location_name = plainField p "location" "name" ∧
    r.region = plainField p "location" "region" ∧
    r.country = plainField p "location" "country" ∧
    r.latitude = (plainField p "location" "lat").bind pyFloat ∧
    r.longitude = (plainField p "location" "lon").bind pyFloat ∧
    r.observation_time = plainField p "current" "observation_time" ∧
    r.temperature_c = plainField p "current" "temperature" ∧
    r.humidity = plainField p "current" "humidity" ∧
    r.wind_speed = plainField p "current" "wind_speed" ∧
    r.wind_dir = plainField p "current" "wind_dir" ∧
    r.pressure = plainField p "current" "pressure" ∧
    r.precip = plainField p "current" "precip" ∧
    r.cloudcover = plainField p "current" "cloudcover" ∧
    r.uv_index = plainField p "current" "uv_index" ∧
    r.visibility = plainField p "current" "visibility" ∧
    r.is_day = plainField p "current" "is_day" := by
  unfold buildRow at h
  obtain ⟨ro, hro, h⟩ := bindOk h
  obtain ⟨lo, hlo, h⟩ := bindOk h
  obtain ⟨co, hco, h⟩ := bindOk h
  obtain ⟨qt, hqt, h⟩ := bindOk h
  obtain ⟨ln, hln, h⟩ := bindOk h
  obtain ⟨rg, hrg, h⟩ := bindOk h
  obtain ⟨ctr, hctr, h⟩ := bindOk h
  obtain ⟨latv, hlatv, h⟩ := bindOk h
  obtain ⟨lat, hlat, h⟩ := bindOk h
  obtain ⟨lonv, hlonv, h⟩ := bindOk h
  obtain ⟨lon, hlon, h⟩ := bindOk h
  obtain ⟨ot, hot, h⟩ := bindOk h
  obtain ⟨tc, htc, h⟩ := bindOk h
  obtain ⟨hu, hhu, h⟩ := bindOk h
  obtain ⟨ws, hws, h⟩ := bindOk h
  obtain ⟨wd, hwd, h⟩ := bindOk h
  obtain ⟨pr, hpr, h⟩ := bindOk h
  obtain ⟨pc, hpc, h⟩ := bindOk h
  obtain ⟨cc, hcc, h⟩ := bindOk h
  obtain ⟨uv, huv, h⟩ := bindOk h
  obtain ⟨vi, hvi, h⟩ := bindOk h
  obtain ⟨isd, hisd, h⟩ := bindOk h
  rw [pure_eq_ok] at h
  simp only [Except.ok.injEq] at h
  subst h
  refine ⟨rfl, ?_, ?_, ?_, ?_, ?_, ?_, ?_, ?_, ?_, ?_, ?_, ?_, ?_, ?_, ?_, ?_, ?_⟩
  · exact sectionOr_getAttr hro hqt
  · exact sectionOr_getAttr hlo hln
  · exact sectionOr_getAttr hlo hrg
  · exact sectionOr_getAttr hlo hctr
  · rw [floatIfPresent_ok hlat, sectionOr_getAttr hlo hlatv]
  · rw [floatIfPresent_ok hlon, sectionOr_getAttr hlo hlonv]
  · exact sectionOr_getAttr hco hot
  · exact sectionOr_getAttr hco htc
  · exact sectionOr_getAttr hco hhu
  · exact sectionOr_getAttr hco hws
  · exact sectionOr_getAttr hco hwd
  · exact sectionOr_getAttr hco hpr
  · exact sectionOr_getAttr hco hpc
  · exact sectionOr_getAttr hco hcc
  · exact sectionOr_getAttr hco huv
  · exact sectionOr_getAttr hco hvi
  · exact sectionOr_getAttr hco hisd

/-- A section key that is absent or null reads as the empty mapping. -/
lemma sectionOr_of_missing {fs : JFields} {k : String}
    (h : missingOrNull fs k) : sectionOr (.jobj fs) k = .ok (jo []) := by
  cases h with
  | inl h => simp [sectionOr, pyGetAttr, JFields.lookupN, h]
  | inr h => simp [sectionOr, pyGetAttr, JFields.lookupN, h]

/-- A plain nested lookup through an absent/null section is null. -/
lemma plainField_of_missing {fs : JFields} {sec : String} (k : String)
    (h : missingOrNull fs sec) : plainField (.jobj fs) sec k = none := by
  cases h with
  | inl h => simp [plainField, h]
  | inr h => simp [plainField, h]

/-- Whatever a single endpoint attempt returns passed both validation
checks: no explicit `success: false` flag and a positive `current`
membership test. -/
lemma attemptEndpoint_ok_validated {net : Net} {k q u url : String} {d : JVal}
    (h : attemptEndpoint net k q u url = .ok d) :
    isFalseFlag d = false ∧ pyContains "current" d = .ok true := by
  unfold attemptEndpoint at h
  cases hn : net url k q u with
  | error e => rw [hn] at h; simp at h
  | ok data =>
      rw [hn] at h
      replace h : validateResponse data = .ok d := h
      unfold validateResponse at h
      by_cases hf : isFalseFlag data = true
      · rw [if_pos hf] at h
        cases herr : errSection data with
        | jobj efs => rw [herr] at h; simp at h
        | jnull => rw [herr] at h; simp at h
        | jbool b => rw [herr] at h; simp at h
        | jnum n => rw [herr] at h; simp at h
        | jstr s => rw [herr] at h; simp at h
        | jarr xs => rw [herr] at h; simp at h
      · rw [if_neg hf] at h
        cases hc : pyContains "current" data with
        | error e => rw [hc] at h; simp at h
        | ok b =>
            rw [hc] at h
            cases b with
            | false => simp at h
            | true =>
                simp only [Except.ok.injEq] at h
                subst h
                exact ⟨Bool.not_eq_true _ ▸ Bool.of_not_eq_true hf, hc⟩

/-- Whatever the fallback loop returns passed both validation checks. -/
lemma fetchLoop_ok_validated {net : Net} {k q u : String} {d : JVal} :
    ∀ (urls : List String) (st : Option String),
      fetchLoop net k q u urls st = .ok d →
      isFalseFlag d = false ∧ pyContains "current" d = .ok true := by
  intro urls
  induction urls with
  | nil => intro st h; simp [fetchLoop] at h
  | cons url rest ih =>
      intro st h
      unfold fetchLoop at h
      cases ha : attemptEndpoint net k q u url with
      | ok d0 =>
          rw [ha] at h
          simp only [Except.ok.injEq] at h
          subst h
          exact attemptEndpoint_ok_validated ha
      | error e =>
          rw [ha] at h
          exact ih (some e) h

/-- C1: for every payload containing a `current` section on which the
documented mapping is defined (the row construction succeeds), the loader
appends exactly one row to the table; the row's flattened columns equal the
payload's fields under the documented mapping (plain nested lookups, lat/lon
coerced to floating point), and the `raw` archive column is structurally
equal to the original payload. -/
theorem load_inserts_mapped_row (p : JVal) (r : WeatherRow) (now : ℚ)
    (db : List StoredRow)
    (_hcur : pyContains "current" p = .ok true)
    (hrow : buildRow p = .ok r) :
    load_to_postgres p now db = .ok (db ++ [⟨now, r⟩]) ∧
    (r.raw = p ∧
      r.query_text = plainField p "request" "query" ∧
      r.location_name = plainField p "location" "name" ∧
      r.region = plainField p "location" "region" ∧
      r.country = plainField p "location" "country" ∧
      r.latitude = (plainField p "location" "lat").bind pyFloat ∧
      r.longitude = (plainField p "location" "lon").bind pyFloat ∧
      r.observation_time = plainField p "current" "observation_time" ∧
      r.temperature_c = plainField p "current" "temperature" ∧
      r.humidity = plainField p "current" "humidity" ∧
      r.wind_speed = plainField p "current" "wind_speed" ∧
      r.wind_dir = plainField p "current" "wind_dir" ∧
      r.pressure = plainField p "current" "pressure" ∧
      r.precip = plainField p "current" "precip" ∧
      r.cloudcover = plainField p "current" "cloudcover" ∧
      r.uv_index = plainField p "current" "uv_index" ∧
      r.visibility = plainField p "current" "visibility" ∧
      r.is_day = plainField p "current" "is_day") := by
  refine ⟨?_, buildRow_ok_fields hrow⟩
  unfold load_to_postgres
  rw [hrow]
  rfl

/-- C1 witness: the spec's end-to-end example.  The fake payload for query
"Jakarta" loads as exactly one row with `query_text="Jakarta"`,
`latitude=-6.21`, `temperature_c=29`, `humidity=70` and `raw` deep-equal to
the input mapping. -/
theorem load_inserts_mapped_row_witness :
    pyContains "current" jakartaPayload = .ok true ∧
    buildRow jakartaPayload = .ok jakartaRow ∧
    load_to_postgres jakartaPayload 0 [] = .ok [⟨0, jakartaRow⟩] ∧
    jakartaRow.query_text = some (.jstr "Jakarta") ∧
    jakartaRow.latitude = some (-6.21 : ℚ) ∧
    jakartaRow.temperature_c = some (.jnum 29) ∧
    jakartaRow.humidity = some (.jnum 70) ∧
    jakartaRow.raw = jakartaPayload := by
  have h := load_inserts_mapped_row jakartaPayload jakartaRow 0 []
    (by rfl) (by rfl)
  refine ⟨rfl, rfl, by simpa using h.1, rfl, ?_, rfl, rfl, rfl⟩
  show some (mkRat (-621) 100) = some (-6.21 : ℚ)
  rw [Rat.mkRat_eq_div]
  norm_num

/-- C3: the three payload sections are read defensively.  A payload whose
`request`/`location`/`current` sections are all absent or null builds a row
whose every nullable column is null (latitude null, not zero); whenever the
build succeeds, an absent-or-null section yields null for each of its
columns; and with the `location` section a mapping, an absent `lat` yields
a null latitude while a present coercible `lat` yields exactly its floating
point value. -/
theorem load_defensive_sections :
    (∀ fs : JFields, missingOrNull fs "request" → missingOrNull fs "location" →
      missingOrNull fs "current" →
      buildRow (.jobj fs) = .ok
        { query_text := none, location_name := none, region := none,
          country := none, latitude := none, longitude := none,
          observation_time := none, temperature_c := none, humidity := none,
          wind_speed := none, wind_dir := none, pressure := none,
          precip := none, cloudcover := none, uv_index := none,
          visibility := none, is_day := none, raw := .jobj fs }) ∧
    (∀ fs r, buildRow (.jobj fs) = .ok r → missingOrNull fs "request" →
      r.query_text = none) ∧
    (∀ fs r, buildRow (.jobj fs) = .ok r → missingOrNull fs "location" →
      r.location_name = none ∧ r.region = none ∧ r.country = none ∧
      r.latitude = none ∧ r.longitude = none) ∧
    (∀ fs r, buildRow (.jobj fs) = .ok r → missingOrNull fs "current" →
      r.observation_time = none ∧ r.temperature_c = none ∧ r.humidity = none ∧
      r.wind_speed = none ∧ r.wind_dir = none ∧ r.pressure = none ∧
      r.precip = none ∧ r.cloudcover = none ∧ r.uv_index = none ∧
      r.visibility = none ∧ r.is_day = none) ∧
    (∀ fs lfs r, buildRow (.jobj fs) = .ok r →
      fs.lookup "location" = some (.jobj lfs) → lfs ≠ .nil →
      (lfs.lookupN "lat" = none → r.latitude = none) ∧
      (∀ v q, lfs.lookupN "lat" = some v → pyFloat v = some q →
        r.latitude = some q)) := by
  refine ⟨?_, ?_, ?_, ?_, ?_⟩
  · intro fs h1 h2 h3
    unfold buildRow
    rw [sectionOr_of_missing h1, sectionOr_of_missing h2, sectionOr_of_missing h3]
    rfl
  · intro fs r h hm
    rw [(buildRow_ok_fields h).2.1, plainField_of_missing _ hm]
  · intro fs r h hm
    have hf := buildRow_ok_fields h
    refine ⟨?_, ?_, ?_, ?_, ?_⟩
    · rw [hf.2.2.1, plainField_of_missing _ hm]
    · rw [hf.2.2.2.1, plainField_of_missing _ hm]
    · rw [hf.2.2.2.2.1, plainField_of_missing _ hm]
    · rw [hf.2.2.2.2.2.1, plainField_of_missing _ hm]; rfl
    · rw [hf.2.2.2.2.2.2.1, plainField_of_missing _ hm]; rfl
  · intro fs r h hm
    have hf := buildRow_ok_fields h
    have hpf : ∀ k, plainField (.jobj fs) "current" k = none := by
      intro k; exact plainField_of_missing k hm
    refine ⟨?_, ?_, ?_, ?_, ?_, ?_, ?_, ?_, ?_, ?_, ?_⟩
    · rw [hf.2.2.2.2.2.2.2.1, hpf]
    · rw [hf.2.2.2.2.2.2.2.2.1, hpf]
    · rw [hf.2.2.2.2.2.2.2.2.2.1, hpf]
    · rw [hf.2.2.2.2.2.2.2.2.2.2.1, hpf]
    · rw [hf.2.2.2.2.2.2.2.2.2.2.2.1, hpf]
    · rw [hf.2.2.2.2.2.2.2.2.2.2.2.2.1, hpf]
    · rw [hf.2.2.2.2.2.2.2.2.2.2.2.2.2.1, hpf]
    · rw [hf.2.2.2.2.2.2.2.2.2.2.2.2.2.2.1, hpf]
    · rw [hf.2.2.2.2.2.2.2.2.2.2.2.2.2.2.2.1, hpf]
    · rw [hf.2.2.2.2.2.2.2.2.2.2.2.2.2.2.2.2.1, hpf]
    · rw [hf.2.2.2.2.2.2.2.2.2.2.2.2.2.2.2.2.2, hpf]
  · intro fs lfs r h hloc _
    have hf := buildRow_ok_fields h
    have hpf : plainField (.jobj fs) "location" "lat" = lfs.lookupN "lat" := by
      simp [plainField, hloc]
    constructor
    · intro hnone
      rw [hf.2.2.2.2.2.1, hpf, hnone]
      rfl
    · intro v q hv hq
      rw [hf.2.2.2.2.2.1, hpf, hv]
      simp [Option.bind, hq]

/-- C3 witness: a payload whose `location` is null and whose other sections
are absent builds the all-null row (latitude null, not zero). -/
theorem load_defensive_sections_witness :
    buildRow (jo [("location", JVal.jnull)]) = .ok
      { query_text := none, location_name := none, region := none,
        country := none, latitude := none, longitude := none,
        observation_time := none, temperature_c := none, humidity := none,
        wind_speed := none, wind_dir := none, pressure := none,
        precip := none, cloudcover := none, uv_index := none,
        visibility := none, is_day := none,
        raw := jo [("location", JVal.jnull)] } :=
  load_defensive_sections.1 (JFields.ofList [("location", JVal.jnull)])
    (Or.inl rfl) (Or.inr rfl) (Or.inl rfl)

/-- C2 counterexample: the claim "whenever `fetch_weather_from_api` returns a
payload, that payload contains the `current` key" fails as stated.  With a
network whose parsed body is the JSON array `["current"]`, the Python
membership test `"current" not in data` passes (element equality), so the
function returns a payload that has no keys at all. -/
theorem fetch_nondict_payload_cex :
    fetch_weather_from_api arrayNet "Jakarta" "key" "m" =
      .ok (ja [.jstr "current"]) ∧
    hasKey (ja [.jstr "current"]) "current" = false := by
  exact ⟨rfl, rfl⟩

/-- C2 (amended): whatever payload `fetch_weather_from_api` returns passed
both validation checks — the Python membership test for "current" succeeded
and the payload is not a mapping with an explicit `success: false` flag; in
particular every *mapping* payload it returns contains the `current` key. -/
theorem fetch_returns_validated_payload (net : Net) (q k u : String)
    (d : JVal) (h : fetch_weather_from_api net q k u = .ok d) :
    pyContains "current" d = .ok true ∧
    isFalseFlag d = false ∧
    (∀ fs, d = .jobj fs → hasKey d "current" = true) := by
  have hv := fetchLoop_ok_validated base_urls none h
  refine ⟨hv.2, hv.1, ?_⟩
  intro fs hd
  subst hd
  have := hv.2
  simp only [pyContains, Except.ok.injEq] at this
  simp [hasKey, this]

/-- C2 witness: a network returning a well-shaped mapping body. -/
theorem fetch_returns_validated_payload_witness :
    pyContains "current" (jo [("current", jo [("temperature", JVal.jnum 29)])])
      = .ok true ∧
    isFalseFlag (jo [("current", jo [("temperature", JVal.jnum 29)])]) = false :=
  let h := fetch_returns_validated_payload okNet "Jakarta" "key" "m"
    (jo [("current", jo [("temperature", JVal.jnum 29)])]) rfl
  ⟨h.1, h.2.1⟩

/-- C4: the candidate list tries the secure (https) endpoint first; an
exception from one endpoint is recorded and the loop proceeds to the next
candidate; and whenever the first candidate fails while the second succeeds
with a validated payload, the function returns the second candidate's
payload. -/
theorem fetch_fallback_ordering :
    base_urls = ["https://api.weatherstack.com/current",
      "http://api.weatherstack.com/current"] ∧
    (∀ (net : Net) (k q u url : String) (rest : List String)
      (st : Option String) (e : String),
      attemptEndpoint net k q u url = .error e →
      fetchLoop net k q u (url :: rest) st = fetchLoop net k q u rest (some e)) ∧
    (∀ (net : Net) (k q u u1 u2 : String) (rest : List String)
      (st : Option String) (e : String) (d : JVal),
      attemptEndpoint net k q u u1 = .error e →
      attemptEndpoint net k q u u2 = .ok d →
      fetchLoop net k q u (u1 :: u2 :: rest) st = .ok d) ∧
    (∀ (net : Net) (q k u e : String) (d : JVal),
      attemptEndpoint net k q u "https://api.weatherstack.com/current" = .error e →
      attemptEndpoint net k q u "http://api.weatherstack.com/current" = .ok d →
      fetch_weather_from_api net q k u = .ok d) := by
  refine ⟨rfl, ?_, ?_, ?_⟩
  · intro net k q u url rest st e he
    rw [show fetchLoop net k q u (url :: rest) st =
      (match attemptEndpoint net k q u url with
        | .ok d => .ok d
        | .error e => fetchLoop net k q u rest (some e)) from rfl, he]
  · intro net k q u u1 u2 rest st e d he hd
    unfold fetchLoop
    rw [he]
    unfold fetchLoop
    rw [hd]
  · intro net q k u e d he hd
    unfold fetch_weather_from_api base_urls
    unfold fetchLoop
    rw [he]
    unfold fetchLoop
    rw [hd]

/-- C4 witness: a network failing on https and succeeding on http. -/
theorem fetch_fallback_ordering_witness :
    fetch_weather_from_api fallbackNet "Jakarta" "key" "m" =
      .ok (jo [("current", jo [("temperature", JVal.jnum 29)])]) :=
  fetch_fallback_ordering.2.2.2 fallbackNet "Jakarta" "key" "m"
    "SSL handshake failed"
    (jo [("current", jo [("temperature", JVal.jnum 29)])]) rfl rfl

/-- Both endpoint candidates failing yields the aggregated error built from
the last failure (shared between the all-fail and success-false claims). -/
lemma fetch_both_fail (net : Net) (q k u e1 e2 : String)
    (h1 : attemptEndpoint net k q u "https://api.weatherstack.com/current"
      = .error e1)
    (h2 : attemptEndpoint net k q u "http://api.weatherstack.com/current"
      = .error e2) :
    fetch_weather_from_api net q k u =
      .error ("Failed calling Weatherstack API (https/http). Last error: "
        ++ e2) := by
  unfold fetch_weather_from_api base_urls
  unfold fetchLoop
  rw [h1]
  unfold fetchLoop
  rw [h2]
  unfold fetchLoop
  rfl

/-- C5: when both endpoint candidates fail, the function raises the single
aggregated error whose message embeds the last underlying failure. -/
theorem fetch_all_fail_aggregated_error (net : Net) (q k u e1 e2 : String)
    (h1 : attemptEndpoint net k q u "https://api.weatherstack.com/current"
      = .error e1)
    (h2 : attemptEndpoint net k q u "http://api.weatherstack.com/current"
      = .error e2) :
    fetch_weather_from_api net q k u =
      .error ("Failed calling Weatherstack API (https/http). Last error: "
        ++ e2) :=
  fetch_both_fail net q k u e1 e2 h1 h2

/-- C5 witness: a network that times out on every endpoint. -/
theorem fetch_all_fail_aggregated_error_witness :
    fetch_weather_from_api downNet "Jakarta" "key" "m" =
      .error ("Failed calling Weatherstack API (https/http). Last error: "
        ++ "connection timed out") :=
  fetch_all_fail_aggregated_error downNet "Jakarta" "key" "m"
    "connection timed out" "connection timed out" rfl rfl

/-- A body with an explicit `success: false` flag always fails validation. -/
lemma validate_false_flag_error {p : JVal} (hf : isFalseFlag p = true) :
    ∃ e, validateResponse p = .error e := by
  unfold validateResponse
  rw [if_pos hf]
  cases errSection p with
  | jobj efs => exact ⟨_, rfl⟩
  | jnull => exact ⟨_, rfl⟩
  | jbool b => exact ⟨_, rfl⟩
  | jnum n => exact ⟨_, rfl⟩
  | jstr s => exact ⟨_, rfl⟩
  | jarr xs => exact ⟨_, rfl⟩

/-- With a dict `error` section, the `success: false` validation failure
message embeds the provider's error code and info. -/
lemma validate_false_flag_error_code {p : JVal} {efs : JFields}
    (hf : isFalseFlag p = true) (herr : errSection p = .jobj efs) :
    validateResponse p = .error ("Weatherstack API error (code="
      ++ strOfOptJ (efs.lookup "code") ++ "): "
      ++ strOfOptJ (efs.lookup "info")) := by
  unfold validateResponse
  rw [if_pos hf, herr]

/-- C6: when every endpoint candidate's body carries an explicit
`success: false` flag (with a mapping `error` section on the last one), the
function raises an error whose message contains the provider's error code. -/
theorem fetch_success_false_error_code (net : Net) (q k u : String)
    (p1 p2 : JVal) (efs2 : JFields)
    (hn1 : net "https://api.weatherstack.com/current" k q u = .ok p1)
    (hn2 : net "http://api.weatherstack.com/current" k q u = .ok p2)
    (hf1 : isFalseFlag p1 = true) (hf2 : isFalseFlag p2 = true)
    (herr2 : errSection p2 = .jobj efs2) :
    ∃ m, fetch_weather_from_api net q k u = .error m ∧
      ∃ a b, m = a ++ strOfOptJ (efs2.lookup "code") ++ b := by
  obtain ⟨e1, he1⟩ := validate_false_flag_error hf1
  have ha1 : attemptEndpoint net k q u "https://api.weatherstack.com/current"
      = .error e1 := by
    unfold attemptEndpoint
    rw [hn1]
    exact he1
  have ha2 : attemptEndpoint net k q u "http://api.weatherstack.com/current"
      = .error ("Weatherstack API error (code="
        ++ strOfOptJ (efs2.lookup "code") ++ "): "
        ++ strOfOptJ (efs2.lookup "info")) := by
    unfold attemptEndpoint
    rw [hn2]
    exact validate_false_flag_error_code hf2 herr2
  refine ⟨_, fetch_both_fail net q k u e1 _ ha1 ha2,
    "Failed calling Weatherstack API (https/http). Last error: "
      ++ "Weatherstack API error (code=",
    "): " ++ strOfOptJ (efs2.lookup "info"), ?_⟩
  simp only [String.append_assoc]

/-- C6 witness: a provider reporting `success: false` with error code 104 on
both endpoints. -/
theorem fetch_success_false_error_code_witness :
    ∃ m, fetch_weather_from_api quotaNet "Jakarta" "key" "m" = .error m ∧
      ∃ a b, m = a ++ strOfOptJ ((JFields.ofList
        [("code", JVal.jnum 104), ("info", JVal.jstr "usage limit reached")]).lookup
          "code") ++ b :=
  fetch_success_false_error_code quotaNet "Jakarta" "key" "m"
    quotaPayload quotaPayload
    (JFields.ofList [("code", JVal.jnum 104), ("info", JVal.jstr "usage limit reached")])
    rfl rfl rfl rfl rfl

/-- C7: the retention pruner deletes exactly the rows older than the
database clock's `now` minus the 2-day retention window: the result only
drops rows (never edits or reorders), no row older than the cutoff remains,
every row at or after the cutoff survives, and when no row qualifies the
delete is a no-op. -/
theorem cleanup_retention_spec (now : ℚ) (db : List StoredRow) :
    RETENTION_DAYS = 2 ∧
    List.Sublist (cleanup_old_rows now db) db ∧
    (∀ r, r ∈ cleanup_old_rows now db → ¬ r.fetched_at < retentionCutoff now) ∧
    (∀ r, r ∈ db → ¬ r.fetched_at < retentionCutoff now →
      r ∈ cleanup_old_rows now db) ∧
    ((∀ r, r ∈ db → ¬ r.fetched_at < retentionCutoff now) →
      cleanup_old_rows now db = db) := by
  refine ⟨rfl, List.filter_sublist _, ?_, ?_, ?_⟩
  · intro r hr
    have h := (List.mem_filter.1 hr).2
    simpa using h
  · intro r hr hnot
    exact List.mem_filter.2 ⟨hr, by simpa using hnot⟩
  · intro hall
    apply List.filter_eq_self.2
    intro a ha
    simpa using hall a ha

/-- C7 witness: with the database clock at 200000 s, a row fetched at 0 s
(older than the 172800 s window) is removed and a row fetched at 200000 s
survives; on the survivors-only table the delete is a no-op. -/
theorem cleanup_retention_spec_witness :
    (⟨0, blankRow⟩ : StoredRow) ∉
      cleanup_old_rows 200000 [⟨0, blankRow⟩, ⟨200000, blankRow⟩] ∧
    (⟨200000, blankRow⟩ : StoredRow) ∈
      cleanup_old_rows 200000 [⟨0, blankRow⟩, ⟨200000, blankRow⟩] ∧
    cleanup_old_rows 200000 [(⟨200000, blankRow⟩ : StoredRow)] =
      [⟨200000, blankRow⟩] := by
  have h := cleanup_retention_spec 200000 [⟨0, blankRow⟩, ⟨200000, blankRow⟩]
  have hcut : ¬ (200000 : ℚ) < retentionCutoff 200000 := by
    unfold retentionCutoff secondsPerDay RETENTION_DAYS
    norm_num
  refine ⟨?_, ?_, ?_⟩
  · intro hmem
    apply h.2.2.1 _ hmem
    show (0 : ℚ) < retentionCutoff 200000
    unfold retentionCutoff secondsPerDay RETENTION_DAYS
    norm_num
  · exact h.2.2.2.1 _ (by simp) hcut
  · refine (cleanup_retention_spec 200000 _).2.2.2.2 ?_
    intro r hr
    simp only [List.mem_singleton] at hr
    subst hr
    exact hcut

lemma cta_tables_mem (s : DbSchema) (t : String) :
    t ∈ (createTableIfAbsent s t).tables := by
  unfold createTableIfAbsent
  by_cases h : t ∈ s.tables
  · rw [if_pos h]; exact h
  · rw [if_neg h]; simp

lemma cta_indexes (s : DbSchema) (t : String) :
    (createTableIfAbsent s t).indexes = s.indexes := by
  unfold createTableIfAbsent
  split <;> rfl

lemma cta_eq_of_mem {s : DbSchema} {t : String} (h : t ∈ s.tables) :
    createTableIfAbsent s t = s := by
  unfold createTableIfAbsent
  rw [if_pos h]

lemma cta_count {s : DbSchema} {t : String} (h : s.tables.count t ≤ 1) :
    (createTableIfAbsent s t).tables.count t = 1 := by
  unfold createTableIfAbsent
  by_cases hm : t ∈ s.tables
  · rw [if_pos hm]
    have := List.count_pos_iff.2 hm
    omega
  · rw [if_neg hm]
    simp [List.count_append, List.count_eq_zero.2 hm]

lemma cia_indexes_mem (s : DbSchema) (i : String) :
    i ∈ (createIndexIfAbsent s i).indexes := by
  unfold createIndexIfAbsent
  by_cases h : i ∈ s.indexes
  · rw [if_pos h]; exact h
  · rw [if_neg h]; simp

lemma cia_tables (s : DbSchema) (i : String) :
    (createIndexIfAbsent s i).tables = s.tables := by
  unfold createIndexIfAbsent
  split <;> rfl

lemma cia_eq_of_mem {s : DbSchema} {i : String} (h : i ∈ s.indexes) :
    createIndexIfAbsent s i = s := by
  unfold createIndexIfAbsent
  rw [if_pos h]

lemma cia_count {s : DbSchema} {i : String} (h : s.indexes.count i ≤ 1) :
    (createIndexIfAbsent s i).indexes.count i = 1 := by
  unfold createIndexIfAbsent
  by_cases hm : i ∈ s.indexes
  · rw [if_pos hm]
    have := List.count_pos_iff.2 hm
    omega
  · rw [if_neg hm]
    simp [List.count_append, List.count_eq_zero.2 hm]

/-- C8: schema provisioning is idempotent.  `ensure_table` run twice equals
it run once (the second run is a no-op on the schema, and being a total
function it cannot raise), and starting from any state holding at most one
copy of the table/index it leaves exactly one `weather_current` table and
exactly one `idx_weather_current_fetched_at` index. -/
theorem ensure_table_idempotent (s : DbSchema) :
    ensure_table (ensure_table s) = ensure_table s ∧
    "weather_current" ∈ (ensure_table s).tables ∧
    "idx_weather_current_fetched_at" ∈ (ensure_table s).indexes ∧
    (s.tables.count "weather_current" ≤ 1 →
      (ensure_table s).tables.count "weather_current" = 1) ∧
    (s.indexes.count "idx_weather_current_fetched_at" ≤ 1 →
      (ensure_table s).indexes.count "idx_weather_current_fetched_at" = 1) := by
  have htab : "weather_current" ∈ (ensure_table s).tables := by
    unfold ensure_table
    rw [cia_tables]
    exact cta_tables_mem s _
  have hidx : "idx_weather_current_fetched_at" ∈ (ensure_table s).indexes :=
    cia_indexes_mem _ _
  refine ⟨?_, htab, hidx, ?_, ?_⟩
  · show createIndexIfAbsent
      (createTableIfAbsent (ensure_table s) "weather_current")
      "idx_weather_current_fetched_at" = ensure_table s
    rw [cta_eq_of_mem htab]
    exact cia_eq_of_mem hidx
  · intro hc
    show (createIndexIfAbsent (createTableIfAbsent s "weather_current")
      "idx_weather_current_fetched_at").tables.count "weather_current" = 1
    rw [cia_tables]
    exact cta_count hc
  · intro hc
    exact cia_count (by rw [cta_indexes]; exact hc)

/-- C8 witness: provisioning an empty database twice leaves exactly one
table/index pair and the second call changes nothing. -/
theorem ensure_table_idempotent_witness :
    ensure_table (ensure_table ⟨[], []⟩) = ensure_table ⟨[], []⟩ ∧
    (ensure_table ⟨[], []⟩).tables.count "weather_current" = 1 ∧
    (ensure_table ⟨[], []⟩).indexes.count "idx_weather_current_fetched_at" = 1 := by
  have h := ensure_table_idempotent ⟨[], []⟩
  exact ⟨h.1, h.2.2.2.1 (by simp), h.2.2.2.2 (by simp)⟩

/-- C9: a missing (or all-whitespace) API credential environment value makes
`extract_and_load` fail with the fatal configuration error, uniformly in the
network and the database state — the result is the configuration error for
every `net` and `db`, so no fetch and no insert can have taken place. -/
theorem extract_missing_key_fatal (env : Env) (net : Net) (now : ℚ)
    (db : List StoredRow)
    (h : env "WEATHERSTACK_API_KEY" = none ∨
      ∃ s, env "WEATHERSTACK_API_KEY" = some s ∧ isBlankStr s = true) :
    extract_and_load env net now db =
      .error "Missing required environment variable: WEATHERSTACK_API_KEY" := by
  have hk : _get_env env "WEATHERSTACK_API_KEY" none true =
      .error "Missing required environment variable: WEATHERSTACK_API_KEY" := by
    cases h with
    | inl h => simp [_get_env, h]
    | inr h =>
        obtain ⟨s, hs, hb⟩ := h
        simp [_get_env, hs, hb, strOfOptStr]
  unfold extract_and_load
  rw [hk]
  rfl

/-- C9 witness: with no environment set, even a healthy network and an empty
table yield only the configuration error. -/
theorem extract_missing_key_fatal_witness :
    extract_and_load emptyEnv okNet 0 [] =
      .error "Missing required environment variable: WEATHERSTACK_API_KEY" :=
  extract_missing_key_fatal emptyEnv okNet 0 [] (Or.inl rfl)

/-- C10: `_get_env` edge cases.  A required variable that is unset (no
default) or set to whitespace only raises the `ValueError`; a non-required
unset variable with no default returns the string "None" (`str(None)`),
not a null value. -/
theorem get_env_edge_cases :
    (∀ (env : Env) (name : String), env name = none →
      _get_env env name none true =
        .error ("Missing required environment variable: " ++ name)) ∧
    (∀ (env : Env) (name s : String), env name = some s → isBlankStr s = true →
      _get_env env name none true =
        .error ("Missing required environment variable: " ++ name)) ∧
    (∀ (env : Env) (name : String), env name = none →
      _get_env env name none false = .ok "None") := by
  refine ⟨?_, ?_, ?_⟩
  · intro env name h
    simp [_get_env, h]
  · intro env name s hs hb
    simp [_get_env, hs, hb, strOfOptStr]
  · intro env name h
    simp [_get_env, h, strOfOptStr]

/-- C10 witness: concrete unset and whitespace-valued environments. -/
theorem get_env_edge_cases_witness :
    _get_env emptyEnv "WEATHERSTACK_API_KEY" none true =
      .error ("Missing required environment variable: "
        ++ "WEATHERSTACK_API_KEY") ∧
    _get_env (fun n => if n = "X" then some " " else none) "X" none true =
      .error ("Missing required environment variable: " ++ "X") ∧
    _get_env emptyEnv "WEATHERSTACK_QUERY" none false = .ok "None" :=
  ⟨get_env_edge_cases.1 emptyEnv "WEATHERSTACK_API_KEY" rfl,
    get_env_edge_cases.2.1 (fun n => if n = "X" then some " " else none)
      "X" " " (by simp) rfl,
    get_env_edge_cases.2.2 emptyEnv "WEATHERSTACK_QUERY" rfl⟩

end WeatherEtl
